import Mathlib

/-!
Verification of the comparison framework of pycallnumber/utils.py
(the classes ComparableObjectMixin and Infinity), as a shallow embedding
of the Python 2 code.

Modelling decisions, all taken from the source:

Python string comparison is bytewise lexicographic; we model strings by
Lean strings compared characterwise by code point (charListLt below).
Comparison keys produced by cmp_key are either a string or Python None;
we model them as Option String, with none standing for None.  In
Python 2, None compares less than every string and equals only None;
keyLt / keyEq below encode exactly that on the key domain.

Python objects appearing in comparisons are modelled by the inductive
type Value:
  Value.inf i    - an Infinity instance with sign field i.sign;
  Value.obj s    - a ComparableObjectMixin instance with no cmp_key
                   override whose str() is s;
  Value.plain s  - a plain Python str s (textual form s, no cmp_key
                   attribute);
  Value.pint n   - a plain Python int n (textual form str(n), no
                   cmp_key attribute).

A computation that may raise is modelled by Res: Res.ok a is a normal
return, Res.exc e a raised exception, Exc distinguishing TypeError,
AttributeError and every other exception class (the except clause of
ComparableObjectMixin._compare catches exactly the first two).

Method calls such as other.cmp_key(self, op) are resolved by matching on
the constructor of the receiver, exactly as Python attribute lookup
resolves them by the receiver's class: Value.cmp_keyE gives the
evaluated call, raising AttributeError on receivers without the
attribute.  The rich-comparison protocol of Python 2 for a op b - try
a's method, on NotImplemented try b's reflected method, and fall back to
the interpreter's default comparison when both return NotImplemented -
is pyOp; PyOutcome.defaultCmp marks that final fallback.  For equality
the default comparison of CPython 2 on two distinct objects of
different types yields unequal, which pyEqB encodes.
-/

/-- The kind of an exception raised by Python code: the except clause in
ComparableObjectMixin._compare catches TypeError and AttributeError. -/
inductive Exc : Type where
  | typeError
  | attributeError
  | otherError
deriving DecidableEq, Repr

/-- Result of running a Python expression: a value or a raised exception. -/
inductive Res (α : Type) : Type where
  | ok (a : α)
  | exc (e : Exc)
deriving DecidableEq, Repr

/-- A comparison key: a Python string (some s) or Python None (none). -/
abbrev Key : Type := Option String

/-- The six relational operators, as named by the op strings of
ComparableObjectMixin (eq, ne, gt, ge, lt, le). -/
inductive Op : Type where
  | eq | ne | gt | ge | lt | le
deriving DecidableEq, Repr

/-- Bytewise lexicographic strict order on character lists, following
Python 2 string comparison. -/
def charListLt : List Char → List Char → Bool
  | [], [] => false
  | [], _ :: _ => true
  | _ :: _, [] => false
  | a :: as, b :: bs => if a < b then true else if b < a then false else charListLt as bs

/-- Python 2 comparison a < b on two strings. -/
def strLtB (a b : String) : Bool := charListLt a.data b.data

/-- Python 2 equality on the key domain: None equals only None, strings
compare by content. -/
def keyEq (a b : Key) : Bool := a == b

/-- Python 2 strict order a < b on the key domain: None is less than
every string and not less than None. -/
def keyLt : Key → Key → Bool
  | none, none => false
  | none, some _ => true
  | some _, none => false
  | some a, some b => strLtB a b

/-- Python 2 order a <= b on the key domain (a total order, so
a <= b iff a < b or a = b). -/
def keyLe (a b : Key) : Bool := keyLt a b || keyEq a b

/-- The comparison lambda that each dunder method of
ComparableObjectMixin passes to _compare, evaluated on the key domain:
eq is s == o, ne is s != o, gt is s > o, ge is s >= o, lt is s < o,
le is s <= o. -/
def opCmp : Op → Key → Key → Bool
  | .eq => fun a b => keyEq a b
  | .ne => fun a b => !(keyEq a b)
  | .gt => fun a b => keyLt b a
  | .ge => fun a b => keyLe b a
  | .lt => fun a b => keyLt a b
  | .le => fun a b => keyLe a b

/-- The sign attribute of an Infinity object: the string 'pos' or 'neg'. -/
inductive Sign : Type where
  | pos
  | neg
deriving DecidableEq, Repr

/-- The textual form of a sign. -/
def Sign.str : Sign → String
  | .pos => "pos"
  | .neg => "neg"

/-- An Infinity instance: its single attribute sign. -/
structure Infinity : Type where
  sign : Sign
deriving DecidableEq, Repr

/-- Infinity.__init__: a freshly constructed Infinity has sign 'pos'. -/
def Infinity.init : Infinity := { sign := Sign.pos }

/-- Infinity.__repr__, which is also str() of an Infinity:
the string <pos infinity> or <neg infinity>. -/
def Infinity.repr (i : Infinity) : String :=
  "<" ++ Sign.str i.sign ++ " infinity>"

/-- Infinity.__neg__: build a fresh Infinity ret and set ret.sign to
'neg' when self.sign is 'pos' and to 'pos' otherwise; self is not
assigned to, so the receiver is unchanged (in this pure embedding the
receiver is simply not part of the result). -/
def Infinity.negate (i : Infinity) : Infinity :=
  { Infinity.init with sign := if i.sign = Sign.pos then Sign.neg else Sign.pos }

/-- The value universe of the embedding; see the header comment. -/
inductive Value : Type where
  | inf (i : Infinity)
  | obj (s : String)
  | plain (s : String)
  | pint (n : Int)
deriving DecidableEq, Repr

/-- str() of a value: an Infinity renders through Infinity.__repr__, a
default mixin object renders as its stored text, a plain string as
itself, an int as its decimal form. -/
def Value.str : Value → String
  | .inf i => Infinity.repr i
  | .obj s => s
  | .plain s => s
  | .pint n => toString n

/-- Whether the value's class provides the cmp_key attribute: Infinity
and ComparableObjectMixin instances do, plain strings and ints do not. -/
def Value.hasCmpKey : Value → Bool
  | .inf _ => true
  | .obj _ => true
  | .plain _ => false
  | .pint _ => false

/-- Whether the value is an Infinity instance (isinstance(v, Infinity)). -/
def Value.isInf : Value → Bool
  | .inf _ => true
  | _ => false

/-- ComparableObjectMixin.cmp_key with no override: return str(self). -/
def ComparableObjectMixin.cmp_key (selfStr : String) : Key :=
  some selfStr

/-- Python '\x7b\x7d '.format(okey): str() of the key followed by one
space; str(None) is the string None. -/
def formatKeySpace : Key → String
  | some s => s ++ " "
  | none => "None" ++ " "

/-- Infinity._get_other: getattr(other, 'cmp_key', lambda ot, op:
str(other))(self, op), unfolded over the receiver's class.  An Infinity
other runs its own cmp_key, whose isinstance branch fires because self
is an Infinity, giving str(other); a default mixin object's cmp_key
gives str(other); a plain string or int has no cmp_key attribute, so
the getattr default gives str(other).  No branch raises. -/
def Infinity.getOther (i : Infinity) (other : Value) (op : Op) : Key :=
  match other with
  | .inf j => some (Infinity.repr j)
  | .obj s => ComparableObjectMixin.cmp_key s
  | .plain s => some s
  | .pint n => some (toString n)

/-- Infinity.cmp_key: if other is an Infinity, return str(self);
otherwise, if self.sign is 'pos', take the other side's key via
self._get_other and append one space to its formatted form; if
self.sign is 'neg', return None. -/
def Infinity.cmp_key (i : Infinity) (other : Value) (op : Op) : Key :=
  match other with
  | .inf _ => some (Infinity.repr i)
  | _ =>
    if i.sign = Sign.pos then
      some (formatKeySpace (Infinity.getOther i other op))
    else
      none

/-- The evaluated call self.cmp_key(other, op), resolved by the class of
self: Infinity runs Infinity.cmp_key, a default mixin object runs
ComparableObjectMixin.cmp_key, and a plain string or int raises
AttributeError because its class has no such attribute. -/
def Value.cmp_keyE : Value → Value → Op → Res Key
  | .inf i, other, op => .ok (Infinity.cmp_key i other op)
  | .obj s, _, _ => .ok (ComparableObjectMixin.cmp_key s)
  | .plain _, _, _ => .exc .attributeError
  | .pint _, _, _ => .exc .attributeError

/-- ComparableObjectMixin._get_other: other.cmp_key(self, op), with no
fallback, so it raises AttributeError when other has no cmp_key. -/
def ComparableObjectMixin.getOther (self other : Value) (op : Op) : Res Key :=
  Value.cmp_keyE other self op

/-- The evaluated call self._get_other(other, op), resolved by the class
of self: Infinity uses its overriding _get_other with the getattr
fallback; every other mixin instance uses the base _get_other. -/
def Value.getOtherE (self other : Value) (op : Op) : Res Key :=
  match self with
  | .inf i => .ok (Infinity.getOther i other op)
  | _ => ComparableObjectMixin.getOther self other op

/-- Whether the except clause of _compare catches an exception:
it names exactly TypeError and AttributeError. -/
def caughtByCompare : Exc → Bool
  | .typeError => true
  | .attributeError => true
  | .otherError => false

/-- The outcome of a dunder comparison method: a boolean, or the
NotImplemented sentinel. -/
inductive CmpResult : Type where
  | bool (b : Bool)
  | notImplemented
deriving DecidableEq, Repr

/-- The try block of ComparableObjectMixin._compare: evaluate
self.cmp_key(other, op), then self._get_other(other, op), then apply
the comparison lambda; a TypeError or AttributeError raised along the
way is caught and NotImplemented returned, any other exception
propagates. -/
def ComparableObjectMixin.compareTry (ka kb : Res Key) (cmp : Key → Key → Bool) :
    Res CmpResult :=
  match ka with
  | .exc e => if caughtByCompare e then .ok .notImplemented else .exc e
  | .ok a =>
    match kb with
    | .exc e => if caughtByCompare e then .ok .notImplemented else .exc e
    | .ok b => .ok (.bool (cmp a b))

/-- ComparableObjectMixin._compare for a mixin receiver self (an
Infinity or a default mixin object): compare(self.cmp_key(other, op),
self._get_other(other, op)) inside the try/except above. -/
def Value.compareM (self other : Value) (op : Op) : Res CmpResult :=
  ComparableObjectMixin.compareTry
    (Value.cmp_keyE self other op)
    (Value.getOtherE self other op)
    (opCmp op)

/-- Python 2 comparison of two ints. -/
def intOpCmp : Op → Int → Int → Bool
  | .eq => fun a b => a == b
  | .ne => fun a b => !(a == b)
  | .gt => fun a b => decide (b < a)
  | .ge => fun a b => decide (b ≤ a)
  | .lt => fun a b => decide (a < b)
  | .le => fun a b => decide (a ≤ b)

/-- The built-in dunder comparison methods of str and int in Python 2:
a str method applied to a str compares bytewise, an int method applied
to an int compares numerically, and either applied to an operand of
another type returns NotImplemented. -/
def builtinOp (op : Op) (self other : Value) : CmpResult :=
  match self, other with
  | .plain s, .plain t => .bool (opCmp op (some s) (some t))
  | .pint m, .pint n => .bool (intOpCmp op m n)
  | _, _ => .notImplemented

/-- The dunder method for op that the class of self supplies, applied to
other: mixin classes (Infinity and default mixin objects) use
ComparableObjectMixin's methods, hence _compare; str and int use their
built-in methods. -/
def Value.appliedOp (op : Op) (self other : Value) : Res CmpResult :=
  match self with
  | .inf _ => Value.compareM self other op
  | .obj _ => Value.compareM self other op
  | .plain _ => .ok (builtinOp op self other)
  | .pint _ => .ok (builtinOp op self other)

/-- The reflected operator Python tries on the right operand:
gt and lt swap, ge and le swap, eq and ne reflect to themselves. -/
def Op.reflected : Op → Op
  | .eq => .eq
  | .ne => .ne
  | .gt => .lt
  | .lt => .gt
  | .ge => .le
  | .le => .ge

/-- Outcome of evaluating a op b at the interpreter level: a boolean, or
the fall-through to the interpreter's default comparison after both
operands' methods returned NotImplemented. -/
inductive PyOutcome : Type where
  | bool (b : Bool)
  | defaultCmp
deriving DecidableEq, Repr

/-- The Python 2 rich-comparison protocol for a op b: call a's method
for op; if it returns NotImplemented, call b's method for the reflected
operator; if that also returns NotImplemented, the interpreter falls
back to its default comparison (defaultCmp).  A raised exception
propagates. -/
def pyOp (op : Op) (a b : Value) : Res PyOutcome :=
  match Value.appliedOp op a b with
  | .exc e => .exc e
  | .ok (.bool r) => .ok (.bool r)
  | .ok .notImplemented =>
    match Value.appliedOp (Op.reflected op) b a with
    | .exc e => .exc e
    | .ok (.bool r) => .ok (.bool r)
    | .ok .notImplemented => .ok .defaultCmp

/-- a == b at the interpreter level, with the CPython 2 default
comparison supplied for the fall-through case: in this universe the
fall-through is reached only for two distinct objects of different
types, which the default comparison reports as unequal. -/
def pyEqB (a b : Value) : Res Bool :=
  match pyOp .eq a b with
  | .exc e => .exc e
  | .ok (.bool r) => .ok r
  | .ok .defaultCmp => .ok false

/-- The positive sentinel: Infinity(). -/
def positive_sentinel : Infinity := Infinity.init

/-- The negative sentinel: -Infinity(). -/
def negative_sentinel : Infinity := Infinity.negate Infinity.init

theorem charListLt_snoc {c : Char} : ∀ (l : List Char), charListLt l (l ++ [c]) = true
  | [] => rfl
  | a :: l => by
      simp only [List.cons_append, charListLt, if_neg (lt_irrefl a)]
      exact charListLt_snoc l

theorem charListLt_self : ∀ (l : List Char), charListLt l l = false
  | [] => rfl
  | a :: l => by
      simp only [charListLt, if_neg (lt_irrefl a)]
      exact charListLt_self l

theorem strLtB_append_space (s : String) : strLtB s (s ++ " ") = true := by
  have h : (s ++ " ").data = s.data ++ [' '] := rfl
  simp only [strLtB, h]
  exact charListLt_snoc s.data

theorem strLtB_self (s : String) : strLtB s s = false :=
  charListLt_self s.data

/-- Claim C1: for every ordinary comparable value v (a non-Infinity
value with a defined total order and a textual form), the positive
sentinel compares greater than v and v compares less than the positive
sentinel at the interpreter level: the positive sentinel's cmp_key
appends a trailing character to the other side's key, so it sorts
strictly after any key the other side produces. -/
theorem spec_C1 (v : Value) (h : v.isInf = false) :
    pyOp .gt (.inf positive_sentinel) v = .ok (.bool true) ∧
    pyOp .lt v (.inf positive_sentinel) = .ok (.bool true) := by
  cases v with
  | inf i => simp [Value.isInf] at h
  | obj s =>
      refine ⟨?_, ?_⟩ <;>
        simp [pyOp, Value.appliedOp, Value.compareM, Value.cmp_keyE, Value.getOtherE,
          Infinity.cmp_key, Infinity.getOther, ComparableObjectMixin.cmp_key,
          ComparableObjectMixin.getOther, ComparableObjectMixin.compareTry,
          opCmp, keyLt, positive_sentinel, Infinity.init, formatKeySpace,
          strLtB_append_space]
  | plain s =>
      refine ⟨?_, ?_⟩ <;>
        simp [pyOp, Value.appliedOp, Value.compareM, Value.cmp_keyE, Value.getOtherE,
          Infinity.cmp_key, Infinity.getOther, ComparableObjectMixin.cmp_key,
          ComparableObjectMixin.getOther, ComparableObjectMixin.compareTry,
          builtinOp, Op.reflected,
          opCmp, keyLt, positive_sentinel, Infinity.init, formatKeySpace,
          strLtB_append_space]
  | pint n =>
      refine ⟨?_, ?_⟩ <;>
        simp [pyOp, Value.appliedOp, Value.compareM, Value.cmp_keyE, Value.getOtherE,
          Infinity.cmp_key, Infinity.getOther, ComparableObjectMixin.cmp_key,
          ComparableObjectMixin.getOther, ComparableObjectMixin.compareTry,
          builtinOp, Op.reflected,
          opCmp, keyLt, positive_sentinel, Infinity.init, formatKeySpace,
          strLtB_append_space]

/-- Witness for C1 at the concrete ordinary value "abc" (a plain
string). -/
theorem spec_C1_witness :
    Value.isInf (.plain "abc") = false ∧
    (pyOp .gt (.inf positive_sentinel) (.plain "abc") = .ok (.bool true) ∧
     pyOp .lt (.plain "abc") (.inf positive_sentinel) = .ok (.bool true)) :=
  ⟨by decide, spec_C1 (.plain "abc") (by decide)⟩

/-- Claim C2: for every ordinary comparable value v (a non-Infinity
value with a defined total order and a textual form), the negative
sentinel compares less than v and v compares greater than the negative
sentinel at the interpreter level: the negative sentinel's cmp_key
returns the absence-of-value marker None, which compares less than
every string including the empty string. -/
theorem spec_C2 (v : Value) (h : v.isInf = false) :
    pyOp .lt (.inf negative_sentinel) v = .ok (.bool true) ∧
    pyOp .gt v (.inf negative_sentinel) = .ok (.bool true) := by
  cases v with
  | inf i => simp [Value.isInf] at h
  | obj s =>
      refine ⟨?_, ?_⟩ <;>
        simp [pyOp, Value.appliedOp, Value.compareM, Value.cmp_keyE, Value.getOtherE,
          Infinity.cmp_key, Infinity.getOther, ComparableObjectMixin.cmp_key,
          ComparableObjectMixin.getOther, ComparableObjectMixin.compareTry,
          opCmp, keyLt, negative_sentinel, Infinity.negate, Infinity.init,
          formatKeySpace]
  | plain s =>
      refine ⟨?_, ?_⟩ <;>
        simp [pyOp, Value.appliedOp, Value.compareM, Value.cmp_keyE, Value.getOtherE,
          Infinity.cmp_key, Infinity.getOther, ComparableObjectMixin.cmp_key,
          ComparableObjectMixin.getOther, ComparableObjectMixin.compareTry,
          builtinOp, Op.reflected,
          opCmp, keyLt, negative_sentinel, Infinity.negate, Infinity.init,
          formatKeySpace]
  | pint n =>
      refine ⟨?_, ?_⟩ <;>
        simp [pyOp, Value.appliedOp, Value.compareM, Value.cmp_keyE, Value.getOtherE,
          Infinity.cmp_key, Infinity.getOther, ComparableObjectMixin.cmp_key,
          ComparableObjectMixin.getOther, ComparableObjectMixin.compareTry,
          builtinOp, Op.reflected,
          opCmp, keyLt, negative_sentinel, Infinity.negate, Infinity.init,
          formatKeySpace]

/-- Witness for C2 at the concrete ordinary value 42 (a plain int). -/
theorem spec_C2_witness :
    Value.isInf (.pint 42) = false ∧
    (pyOp .lt (.inf negative_sentinel) (.pint 42) = .ok (.bool true) ∧
     pyOp .gt (.pint 42) (.inf negative_sentinel) = .ok (.bool true)) :=
  ⟨by decide, spec_C2 (.pint 42) (by decide)⟩

/-- Claim C3: the positive sentinel compares greater than the negative
sentinel and the negative sentinel compares less than the positive
sentinel, even though sentinel-vs-sentinel comparison goes through each
sentinel's textual label (str(self), via the isinstance branch of
cmp_key) rather than its sign. -/
theorem spec_C3 :
    pyOp .gt (.inf positive_sentinel) (.inf negative_sentinel) = .ok (.bool true) ∧
    pyOp .lt (.inf negative_sentinel) (.inf positive_sentinel) = .ok (.bool true) ∧
    Infinity.cmp_key positive_sentinel (.inf negative_sentinel) .gt
      = some (Infinity.repr positive_sentinel) ∧
    Infinity.cmp_key negative_sentinel (.inf positive_sentinel) .lt
      = some (Infinity.repr negative_sentinel) := by
  refine ⟨?_, ?_, ?_, ?_⟩ <;> decide

/-- Claim C4: negating an Infinity flips the sign and builds a new
sentinel, leaving the receiver unchanged (the embedding of __neg__ is a
pure function of the receiver; the source assigns only to the fresh
object ret).  The negation of the positive sentinel behaves identically
to a freshly constructed negative sentinel in all comparisons, on
either side of any operator, and vice versa. -/
theorem spec_C4 :
    (Infinity.negate positive_sentinel).sign = Sign.neg ∧
    (Infinity.negate negative_sentinel).sign = Sign.pos ∧
    positive_sentinel.sign = Sign.pos ∧
    negative_sentinel.sign = Sign.neg ∧
    (∀ (v : Value) (op : Op),
      pyOp op (.inf (Infinity.negate positive_sentinel)) v
        = pyOp op (.inf negative_sentinel) v) ∧
    (∀ (v : Value) (op : Op),
      pyOp op v (.inf (Infinity.negate positive_sentinel))
        = pyOp op v (.inf negative_sentinel)) ∧
    (∀ (v : Value) (op : Op),
      pyOp op (.inf (Infinity.negate negative_sentinel)) v
        = pyOp op (.inf positive_sentinel) v) ∧
    (∀ (v : Value) (op : Op),
      pyOp op v (.inf (Infinity.negate negative_sentinel))
        = pyOp op v (.inf positive_sentinel)) := by
  have hp : Infinity.negate positive_sentinel = negative_sentinel := by decide
  have hn : Infinity.negate negative_sentinel = positive_sentinel := by decide
  refine ⟨by decide, by decide, by decide, by decide, ?_, ?_, ?_, ?_⟩ <;>
    intro v op <;> simp [hp, hn]

/-- Counterexample to claim C5 as stated: with self a default mixin
object rendering as "b" and other the plain string "a" (which has no
cmp_key), the base ComparableObjectMixin._get_other does not fall back
to str(other); it raises AttributeError, and _compare returns
NotImplemented instead of the boolean that the claimed str fallback
would produce ("b" > "a" would be True). -/
theorem spec_C5_counterexample :
    Value.getOtherE (.obj "b") (.plain "a") .gt = .exc .attributeError ∧
    Value.compareM (.obj "b") (.plain "a") .gt = .ok .notImplemented ∧
    Value.compareM (.obj "b") (.plain "a") .gt ≠ .ok (.bool true) ∧
    opCmp .gt (ComparableObjectMixin.cmp_key "b") (some (Value.str (.plain "a"))) = true := by
  refine ⟨by decide, by decide, by decide, by decide⟩

/-- Claim C5 as amended: in ComparableObjectMixin itself, _get_other is
other.cmp_key(self, op) with no fallback, so when the other value lacks
cmp_key it raises AttributeError, which _compare catches, making the
comparison NotImplemented rather than failing or falling back; the
fallback to str(other) exists only in Infinity's override of
_get_other. -/
theorem spec_C5 (s t : String) (op : Op) (i : Infinity) :
    ComparableObjectMixin.getOther (.obj s) (.plain t) op = .exc .attributeError ∧
    Value.compareM (.obj s) (.plain t) op = .ok .notImplemented ∧
    Infinity.getOther i (.plain t) op = some t := by
  refine ⟨rfl, ?_, rfl⟩
  simp [Value.compareM, Value.cmp_keyE, Value.getOtherE, ComparableObjectMixin.getOther,
    ComparableObjectMixin.compareTry, ComparableObjectMixin.cmp_key, caughtByCompare]

/-- Claim C6: whenever computing either side's key raises a TypeError
or an AttributeError (the first raising computation being one of the
two caught classes), _compare returns NotImplemented for every one of
the six operators instead of propagating the exception; concretely, a
default mixin object compared with a plain int gives NotImplemented
under all six operators, and equality against that incompatible type
reports not-equal rather than crashing. -/
theorem spec_C6 :
    (∀ (ka kb : Res Key) (op : Op) (e : Exc),
        caughtByCompare e = true →
        (ka = .exc e ∨ ((∃ k, ka = .ok k) ∧ kb = .exc e)) →
        ComparableObjectMixin.compareTry ka kb (opCmp op) = .ok .notImplemented) ∧
    (∀ (s : String) (n : Int) (op : Op),
        Value.compareM (.obj s) (.pint n) op = .ok .notImplemented) ∧
    (∀ (s : String) (n : Int),
        pyEqB (.obj s) (.pint n) = .ok false) := by
  refine ⟨?_, ?_, ?_⟩
  · intro ka kb op e he hcase
    rcases hcase with hka | ⟨⟨k, hk⟩, hkb⟩
    · subst hka
      simp [ComparableObjectMixin.compareTry, he]
    · subst hk; subst hkb
      simp [ComparableObjectMixin.compareTry, he]
  · intro s n op
    simp [Value.compareM, Value.cmp_keyE, Value.getOtherE,
      ComparableObjectMixin.getOther, ComparableObjectMixin.cmp_key,
      ComparableObjectMixin.compareTry, caughtByCompare]
  · intro s n
    simp [pyEqB, pyOp, Value.appliedOp, Value.compareM, Value.cmp_keyE,
      Value.getOtherE, ComparableObjectMixin.getOther,
      ComparableObjectMixin.cmp_key, ComparableObjectMixin.compareTry,
      caughtByCompare, builtinOp, Op.reflected]

/-- Witness for C6: the general NotImplemented property applied at the
concrete pair of key computations (raised TypeError, returned None). -/
theorem spec_C6_witness :
    caughtByCompare Exc.typeError = true ∧
    ComparableObjectMixin.compareTry (.exc Exc.typeError) (.ok none) (opCmp .eq)
      = .ok .notImplemented :=
  ⟨by decide,
   spec_C6.1 (.exc Exc.typeError) (.ok none) .eq Exc.typeError (by decide) (Or.inl rfl)⟩

/-- Claim C7: two independently constructed Infinity sentinels of the
same sign compare equal under ==, because same-sign sentinels produce
identical textual-label keys in the isinstance branch of cmp_key. -/
theorem spec_C7 (i j : Infinity) (h : i.sign = j.sign) :
    pyOp .eq (.inf i) (.inf j) = .ok (.bool true) := by
  obtain ⟨si⟩ := i
  obtain ⟨sj⟩ := j
  simp only at h
  subst h
  cases si <;> decide

/-- Witness for C7: two (independently written) positive sentinels. -/
theorem spec_C7_witness :
    Infinity.init.sign = Infinity.init.sign ∧
    pyOp .eq (.inf Infinity.init) (.inf Infinity.init) = .ok (.bool true) :=
  ⟨rfl, spec_C7 Infinity.init Infinity.init rfl⟩

/-- Claim C8: for a type using ComparableObjectMixin without overriding
cmp_key, every relational operator between two instances evaluates the
operator on their textual representations, and the result coincides
with comparing the two texts as plain Python strings. -/
theorem spec_C8 (s t : String) (op : Op) :
    pyOp op (.obj s) (.obj t) = .ok (.bool (opCmp op (some s) (some t))) ∧
    pyOp op (.obj s) (.obj t) = pyOp op (.plain s) (.plain t) := by
  refine ⟨?_, ?_⟩ <;>
    simp [pyOp, Value.appliedOp, Value.compareM, Value.cmp_keyE, Value.getOtherE,
      ComparableObjectMixin.getOther, ComparableObjectMixin.cmp_key,
      ComparableObjectMixin.compareTry, builtinOp]

/-- Claim C9: negation of Infinity sentinels is an involution: negating
twice restores the sign, and the doubly negated sentinel compares equal
to the original under ==. -/
theorem spec_C9 (i : Infinity) :
    (Infinity.negate (Infinity.negate i)).sign = i.sign ∧
    pyOp .eq (.inf (Infinity.negate (Infinity.negate i))) (.inf i) = .ok (.bool true) := by
  obtain ⟨s⟩ := i
  cases s <;> exact ⟨by decide, by decide⟩

/-- Claim C10: an Infinity sentinel of either sign never compares
strictly greater or strictly less than itself: s > s and s < s are
False while s == s, s >= s and s <= s are True. -/
theorem spec_C10 (i : Infinity) :
    pyOp .gt (.inf i) (.inf i) = .ok (.bool false) ∧
    pyOp .lt (.inf i) (.inf i) = .ok (.bool false) ∧
    pyOp .eq (.inf i) (.inf i) = .ok (.bool true) ∧
    pyOp .ge (.inf i) (.inf i) = .ok (.bool true) ∧
    pyOp .le (.inf i) (.inf i) = .ok (.bool true) := by
  obtain ⟨s⟩ := i
  cases s <;> exact ⟨by decide, by decide, by decide, by decide, by decide⟩
